import Mathlib

/-!
Shallow embedding of the SPI Adapter firmware (`src/firmware/platformio/src/main.cpp`)
and proofs about its command protocol engine.

Machine integers are modelled as `Nat` with explicit `% 2^w` (or masking) at the
points where the C++ code relies on fixed-width wraparound.  Hardware side
effects (chip-select writes, SPI transactions) are modelled as an explicit
event trace; serial output is modelled as the list of bytes written.
-/

namespace SpiAdapter

/-- `kMaxTransactionBytes` from main.cpp: capacity of `data_buffer`. -/
def kMaxTransactionBytes : Nat := 256

/-- `kApiVersion` from main.cpp. -/
def kApiVersion : Nat := 1

/-- `kFirmwareVersion` from main.cpp. -/
def kFirmwareVersion : Nat := 1

/-- `kCommandTimeoutMillis` from main.cpp. -/
def kCommandTimeoutMillis : Nat := 250

/-- `aux_pins` table from main.cpp: maps aux pin index to gp pin index. -/
def aux_pins : List Nat := [0, 1, 2, 3, 4, 5, 6, 7]

/-- `cs_pins` table from main.cpp: maps CS pin index to gp pin index. -/
def cs_pins : List Nat := [10, 11, 12, 13]

/-- The six command selector handlers of `find_command_handler_by_char`. -/
inductive CmdId where
  | echo
  | info
  | auxMode
  | auxRead
  | auxWrite
  | send
deriving DecidableEq, Repr

/-- `find_command_handler_by_char` from main.cpp: maps a selector byte to a
handler, or none for an unknown selector. -/
def find_command_handler_by_char (c : Nat) : Option CmdId :=
  if c = 101 then some .echo        -- 'e'
  else if c = 105 then some .info   -- 'i'
  else if c = 109 then some .auxMode -- 'm'
  else if c = 97 then some .auxRead  -- 'a'
  else if c = 98 then some .auxWrite -- 'b'
  else if c = 115 then some .send    -- 's'
  else none

/-- Hardware / dispatcher events, recorded as a trace.  `spiBegin` carries the
`SPISettings` data (frequency, SPI mode); `spiTransferLen` is an
`SPI.transfer(buf, n)` call; `csOn`/`allCsOff` are the chip-select writes;
`aborted`/`entered`/`stepInvoked` are the handler hooks invoked by `loop()`;
`selectorRead` is the dispatch read of a selector byte. -/
inductive Event where
  | spiBegin (freq mode : Nat)
  | spiTransferLen (n : Nat)
  | spiEnd
  | csOn (idx : Nat)
  | allCsOff
  | aborted (c : CmdId)
  | entered (c : CmdId)
  | stepInvoked (c : CmdId)
  | selectorRead (b : Nat)
deriving DecidableEq, Repr

/-- `track_spi_clock_polarity` from main.cpp: given the requested mode and the
global `last_spi_mode`, either does nothing (same mode) or performs a
zero-length dummy SPI transaction at 4 MHz in the new mode and updates
`last_spi_mode`.  Returns the event trace and the new `last_spi_mode`. -/
def track_spi_clock_polarity (new_spi_mode last_spi_mode : Nat) :
    List Event × Nat :=
  if new_spi_mode = last_spi_mode then
    ([], last_spi_mode)
  else
    ([.spiBegin 4000000 new_spi_mode, .spiTransferLen 0, .spiEnd], new_spi_mode)

/-- Unsigned 32-bit subtraction `a - b` (wraparound semantics of `uint32_t`). -/
def u32_sub (a b : Nat) : Nat := (a % 2 ^ 32 + 2 ^ 32 - b % 2 ^ 32) % 2 ^ 32

/-- Unsigned 16-bit subtraction `a - b` (wraparound semantics of `uint16_t`). -/
def u16_sub (a b : Nat) : Nat := (a % 2 ^ 16 + 2 ^ 16 - b % 2 ^ 16) % 2 ^ 16

/-- `Timer::elapsed_millis` from main.cpp: `millis_now - _start_millis` on
`uint32_t`, i.e. modular subtraction. -/
def elapsed_millis (start_millis millis_now : Nat) : Nat :=
  u32_sub millis_now start_millis

/-- `read_serial_bytes(n)` from main.cpp, modelled on the state it touches.
Arguments: target length `n`, current `data_size`, and `avail`
(`Serial.available()`).  `required` is the `uint16_t` difference
`n - data_size`; `requested = min(avail, required)`; `Serial.readBytes` then
delivers exactly `requested` bytes (they are available by construction of
`requested`), which are written to `data_buffer[data_size .. data_size +
requested)` and added to `data_size`.  Returns the new `data_size`, the number
of bytes written (`requested`, locating the write span), and the `data_size >=
n` completion flag. -/
def read_serial_bytes (n data_size avail : Nat) : Nat × Nat × Bool :=
  let required := u16_sub n data_size
  let requested := min (avail % 2 ^ 16) required
  let new_size := (data_size + requested) % 2 ^ 16
  (new_size, requested, decide (new_size ≥ n))

/-- The decoded SEND command header (fields of `SendCommandHandler`). -/
structure SendHeader where
  cs_index : Nat
  spi_mode : Nat
  return_read_bytes : Bool
  speed_units : Nat
  custom_data_count : Nat
  extra_data_count : Nat
deriving DecidableEq, Repr

/-- Header parsing of `SendCommandHandler::on_cmd_loop` from the six header
bytes in `data_buffer` (after the selector byte). -/
def parse_send_header (b0 b1 b2 b3 b4 b5 : Nat) : SendHeader :=
  { cs_index := b0 &&& 3
    spi_mode := (b0 >>> 2) &&& 3
    return_read_bytes := b0 &&& 16 != 0
    speed_units := b1
    custom_data_count := (b2 <<< 8) + b3
    extra_data_count := (b4 <<< 8) + b5 }

/-- `response_count` of `SendCommandHandler::on_cmd_loop` (line 322):
`_return_read_bytes ? total_bytes : 0`. -/
def send_response_count (h : SendHeader) : Nat :=
  if h.return_read_bytes then h.custom_data_count + h.extra_data_count else 0

/-- The validation cascade of `SendCommandHandler::on_cmd_loop` (main.cpp lines
276-282): `error_code` computed from the decoded header.  In the C++ source the
sum `_custom_data_count + _extra_data_count` is computed after integer
promotion to `int`, so it does not wrap. -/
def send_error_code (h : SendHeader) : Nat :=
  if h.speed_units < 1 ∨ h.speed_units > 160 then 0x0c
  else if h.custom_data_count > kMaxTransactionBytes then 0x09
  else if h.extra_data_count > kMaxTransactionBytes then 0x0a
  else if h.custom_data_count + h.extra_data_count > kMaxTransactionBytes then 0x0b
  else 0

/-- `data_buffer` after the payload phase: the custom bytes occupy the front,
then `memset(&data_buffer[_custom_data_count], 0, _extra_data_count)` zero-fills
the next `extra` slots; the rest of the buffer is untouched.  (`custom` is the
host payload; its length equals `_custom_data_count` whenever the preceding
`read_serial_bytes(_custom_data_count)` has completed.) -/
def buffer_after_payload (buf custom : List Nat) (extra : Nat) : List Nat :=
  custom ++ List.replicate extra 0 ++ buf.drop (custom.length + extra)

/-- `SPI.transfer(data_buffer, n)` full-duplex semantics: the received bytes
`rx` (with `rx.length = n`) overwrite the transmitted ones in place. -/
def spi_transfer_bytes (buf rx : List Nat) : List Nat :=
  rx ++ buf.drop rx.length

/-- Result of the completing step of `SendCommandHandler::on_cmd_loop`. -/
structure SendResult where
  serial_out : List Nat
  events : List Event
  last_mode : Nat
  buffer : List Nat
  done : Bool
deriving DecidableEq, Repr

/-- The completing tick of `SendCommandHandler::on_cmd_loop` (main.cpp lines
258-329), entered with the parsed header `h`, starting right after
`_got_cmd_header` is set: validation, payload assembly, clock-polarity
workaround, CS-bracketed SPI transfer, and response.  `custom` is the host
payload (fully available on this tick), `rx` the bytes the SPI device returns,
`buf` the prior contents of `data_buffer`, and `last_spi_mode` the global mode
memory.  On a validation error the handler writes `'E'`, error code and
returns true immediately. -/
def send_step (h : SendHeader) (custom rx buf : List Nat) (last_spi_mode : Nat) :
    SendResult :=
  let ec := send_error_code h
  if ec ≠ 0 then
    { serial_out := [69, ec]   -- 'E', error code
      events := []
      last_mode := last_spi_mode
      buffer := buf
      done := true }
  else
    let buf1 := buffer_after_payload buf custom h.extra_data_count
    let tr := track_spi_clock_polarity h.spi_mode last_spi_mode
    let frequency_hz := h.speed_units * 25000
    let total_bytes := h.custom_data_count + h.extra_data_count
    let buf2 := spi_transfer_bytes buf1 rx
    let response_count := if h.return_read_bytes then total_bytes else 0
    { serial_out := [75, response_count >>> 8, response_count &&& 0xff] ++
        buf2.take response_count    -- 'K', count MSB, count LSB, read bytes
      events := tr.1 ++ [.csOn h.cs_index, .spiBegin frequency_hz h.spi_mode,
        .spiTransferLen total_bytes, .spiEnd, .allCsOff]
      last_mode := tr.2
      buffer := buf2
      done := true }

/-- `InfoCommandHandler::on_cmd_loop` from main.cpp: the fixed response bytes,
exactly as written (note the source writes `kFirmwareVersion & 0x08` for the
last byte). -/
def info_response : List Nat :=
  [75, 83, 80, 73, 0x03, kApiVersion, kFirmwareVersion >>> 8,
    kFirmwareVersion &&& 0x08]

/-- `AuxPinsReadCommandHandler::on_cmd_loop` result byte: for `i` from 7 down
to 0, shift left and or-in `digitalRead(aux_pins[i])`.  `level` gives the
physical line levels (`digitalRead` by gp pin number). -/
def aux_read_result (level : Nat → Bool) : Nat :=
  List.foldl
    (fun acc i =>
      (acc <<< 1) ||| (if level (aux_pins.getD i 0) then 1 else 0))
    0 [7, 6, 5, 4, 3, 2, 1, 0]

/-- The serial response of `AuxPinsReadCommandHandler::on_cmd_loop` (main.cpp
lines 455-456): `Serial.write('K')` then `Serial.write(result)`. -/
def aux_read_response (level : Nat → Bool) : List Nat :=
  [75, aux_read_result level]

/-- Handler-local state of `SendCommandHandler` (its private fields). -/
structure SendState where
  got_cmd_header : Bool
  cs_index : Nat
  spi_mode : Nat
  return_read_bytes : Bool
  speed_units : Nat
  custom_data_count : Nat
  extra_data_count : Nat
deriving DecidableEq, Repr

/-- `SendCommandHandler::reset()`: clears the progress flag and zeroes every
decoded header field (`SPI_MODE0` is 0). -/
def SendState.reset : SendState :=
  { got_cmd_header := false
    cs_index := 0
    spi_mode := 0
    return_read_bytes := false
    speed_units := 0
    custom_data_count := 0
    extra_data_count := 0 }

/-- The dispatcher state of `loop()`: the active command slot `current_cmd`,
the command start timestamp held by `cmd_timer`, the global `data_size`, and
the SEND handler's instance state. -/
structure LoopState where
  current_cmd : Option CmdId
  timer_start : Nat
  data_size : Nat
  send_state : SendState
deriving DecidableEq, Repr

/-- One tick of `loop()` from main.cpp (LED handling omitted — it writes no
serial byte and no hardware event relevant here).  `step` abstracts
`current_cmd->on_cmd_loop()`: it may update the state and returns the
completion flag, serial output and events.  `sel` is the selector byte
available to `read_serial_bytes(1)` in the idle branch (`none` when no byte is
available).  On timeout the abort hook runs (a no-op on every handler's state:
no handler overrides `on_cmd_aborted`) and the slot is cleared with no output;
otherwise the handler steps.  When idle, all CS outputs are turned off,
`data_size` is reset and a selector byte is dispatched via
`find_command_handler_by_char`; on a match the timer is reset, `data_size`
cleared and the handler's `on_cmd_entered` hook runs (`SendCommandHandler`'s
calls `reset()`, the others are no-ops). -/
def loop_tick (step : CmdId → LoopState → LoopState × Bool × List Nat × List Event)
    (st : LoopState) (millis_now : Nat) (sel : Option Nat) :
    LoopState × List Nat × List Event :=
  match st.current_cmd with
  | some c =>
    if elapsed_millis st.timer_start millis_now > kCommandTimeoutMillis then
      ({ st with current_cmd := none }, [], [.aborted c])
    else
      let r := step c st
      ({ r.1 with current_cmd := if r.2.1 then none else some c },
        r.2.2.1, .stepInvoked c :: r.2.2.2)
  | none =>
    match sel with
    | none => ({ st with data_size := 0 }, [], [.allCsOff])
    | some b =>
      match find_command_handler_by_char b with
      | some c =>
        ({ current_cmd := some c
           timer_start := millis_now % 2 ^ 32
           data_size := 0
           send_state := if c = .send then SendState.reset else st.send_state },
          [], [.allCsOff, .selectorRead b, .entered c])
      | none =>
        ({ st with current_cmd := none, data_size := 0 }, [],
          [.allCsOff, .selectorRead b])

/-! ## Theorems -/

/-- Disjointness helper: or-ing a low bit into an even number is addition. -/
theorem two_mul_or_one (a : Nat) : (2 * a) ||| 1 = 2 * a + 1 := by
  apply Nat.eq_of_testBit_eq
  intro i
  have h1 : 2 * a / 2 = a := by omega
  have h2 : (2 * a + 1) / 2 = a := by omega
  cases i with
  | zero => simp [Nat.testBit_or, Nat.testBit_zero]; omega
  | succ j =>
    rw [Nat.testBit_or, Nat.testBit_succ, Nat.testBit_succ, Nat.testBit_succ,
      h1, h2]
    norm_num

/-- One iteration of the AUX_READ packing loop in arithmetic form. -/
theorem shift_or_bit (acc : Nat) (b : Bool) :
    (acc <<< 1) ||| (if b then 1 else 0) = 2 * acc + (if b then 1 else 0) := by
  have hs : acc <<< 1 = 2 * acc := by rw [Nat.shiftLeft_eq]; ring
  cases b
  · simp [hs]
  · simp only [hs, if_pos]
    exact two_mul_or_one acc

/-- Closed form of the AUX_READ result byte: a base-2 expansion of the eight
line levels. -/
theorem aux_read_result_eq (level : Nat → Bool) :
    aux_read_result level =
      (if level 0 then 1 else 0) + 2 * (if level 1 then 1 else 0) +
      4 * (if level 2 then 1 else 0) + 8 * (if level 3 then 1 else 0) +
      16 * (if level 4 then 1 else 0) + 32 * (if level 5 then 1 else 0) +
      64 * (if level 6 then 1 else 0) + 128 * (if level 7 then 1 else 0) := by
  simp only [aux_read_result, List.foldl, aux_pins, List.getD, List.get?,
    Option.getD, shift_or_bit]
  ring

/-- C1: For every SEND command header, validation yields exactly the spec's
error codes, checked in cascade order: speed outside [1,160] → `'E'`,12; else
custom_count over capacity (256) → `'E'`,9; else extra_count over capacity →
`'E'`,10; else custom_count + extra_count over capacity → `'E'`,11; otherwise
no error response is written and the command proceeds (the response starts
with `'K'`). -/
theorem send_header_validation (h : SendHeader) (custom rx buf : List Nat)
    (lm : Nat) :
    (¬ (1 ≤ h.speed_units ∧ h.speed_units ≤ 160) →
      (send_step h custom rx buf lm).serial_out = [69, 12]) ∧
    ((1 ≤ h.speed_units ∧ h.speed_units ≤ 160) →
      h.custom_data_count > kMaxTransactionBytes →
      (send_step h custom rx buf lm).serial_out = [69, 9]) ∧
    ((1 ≤ h.speed_units ∧ h.speed_units ≤ 160) →
      h.custom_data_count ≤ kMaxTransactionBytes →
      h.extra_data_count > kMaxTransactionBytes →
      (send_step h custom rx buf lm).serial_out = [69, 10]) ∧
    ((1 ≤ h.speed_units ∧ h.speed_units ≤ 160) →
      h.custom_data_count ≤ kMaxTransactionBytes →
      h.extra_data_count ≤ kMaxTransactionBytes →
      h.custom_data_count + h.extra_data_count > kMaxTransactionBytes →
      (send_step h custom rx buf lm).serial_out = [69, 11]) ∧
    ((1 ≤ h.speed_units ∧ h.speed_units ≤ 160) →
      h.custom_data_count ≤ kMaxTransactionBytes →
      h.extra_data_count ≤ kMaxTransactionBytes →
      h.custom_data_count + h.extra_data_count ≤ kMaxTransactionBytes →
      send_error_code h = 0 ∧
      (send_step h custom rx buf lm).serial_out.head? = some 75) := by
  refine ⟨?_, ?_, ?_, ?_, ?_⟩ <;> intros
  case _ hs =>
    have hec : send_error_code h = 12 := by
      unfold send_error_code
      rw [if_pos (by omega)]
    simp [send_step, hec]
  case _ hs hc =>
    have hec : send_error_code h = 9 := by
      unfold send_error_code
      rw [if_neg (by omega), if_pos (by omega)]
    simp [send_step, hec]
  case _ hs hc he =>
    have hec : send_error_code h = 10 := by
      unfold send_error_code
      rw [if_neg (by omega), if_neg (by omega), if_pos (by omega)]
    simp [send_step, hec]
  case _ hs hc he ht =>
    have hec : send_error_code h = 11 := by
      unfold send_error_code
      rw [if_neg (by omega), if_neg (by omega), if_neg (by omega),
        if_pos (by omega)]
    simp [send_step, hec]
  case _ hs hc he ht =>
    have hec : send_error_code h = 0 := by
      unfold send_error_code
      rw [if_neg (by omega), if_neg (by omega), if_neg (by omega),
        if_neg (by omega)]
    refine ⟨hec, ?_⟩
    simp [send_step, hec]

/-- Witness for `send_header_validation` at a concrete rejected header
(speed byte 0). -/
theorem send_header_validation_witness :
    (send_step (parse_send_header 0 0 0 0 0 0) [] [] [] 1).serial_out =
      [69, 12] :=
  (send_header_validation (parse_send_header 0 0 0 0 0 0) [] [] [] 1).1
    (by decide)

/-- C2: For every SEND command that passes validation, the success response is
`'K'`, then a 16-bit big-endian count — 0 when the echo-read flag (bit 4 of
the config byte) is clear, custom_count + extra_count when it is set — then
exactly that many bytes from the start of the frame buffer, which are the
received data. -/
theorem send_success_response (h : SendHeader) (custom rx buf : List Nat)
    (lm : Nat) (hv : send_error_code h = 0)
    (hrx : rx.length = h.custom_data_count + h.extra_data_count) :
    (send_step h custom rx buf lm).serial_out =
      [75, send_response_count h >>> 8, send_response_count h &&& 0xff] ++
        (send_step h custom rx buf lm).buffer.take (send_response_count h) ∧
    (send_response_count h >>> 8) * 256 + (send_response_count h &&& 0xff) =
      send_response_count h ∧
    (h.return_read_bytes = false → send_response_count h = 0) ∧
    (h.return_read_bytes = true →
      send_response_count h = h.custom_data_count + h.extra_data_count) ∧
    ((send_step h custom rx buf lm).buffer.take (send_response_count h)).length
      = send_response_count h ∧
    (send_step h custom rx buf lm).buffer.take (send_response_count h) =
      rx.take (send_response_count h) := by
  have hle : send_response_count h ≤
      h.custom_data_count + h.extra_data_count := by
    unfold send_response_count; split <;> omega
  have htot : h.custom_data_count + h.extra_data_count ≤
      kMaxTransactionBytes := by
    unfold send_error_code at hv
    split_ifs at hv <;> omega
  have hhi : send_response_count h >>> 8 = send_response_count h / 256 := by
    rw [Nat.shiftRight_eq_div_pow]
  have hlo : send_response_count h &&& 0xff = send_response_count h % 256 := by
    have := Nat.and_pow_two_sub_one_eq_mod (send_response_count h) 8
    norm_num at this
    exact this
  have hbuf : (send_step h custom rx buf lm).buffer =
      rx ++ (buffer_after_payload buf custom h.extra_data_count).drop
        rx.length := by
    simp [send_step, hv, spi_transfer_bytes]
  refine ⟨?_, ?_, ?_, ?_, ?_, ?_⟩
  · simp [send_step, hv, send_response_count, spi_transfer_bytes]
  · rw [hhi, hlo]
    have : send_response_count h ≤ 256 := le_trans hle htot
    omega
  · intro hf; simp [send_response_count, hf]
  · intro hf; simp [send_response_count, hf]
  · rw [hbuf]
    simp only [List.length_take, List.length_append, List.length_drop]
    omega
  · rw [hbuf, List.take_append_of_le_length (by omega)]

/-- Witness for `send_success_response`: header config 0b10001 (CS 1, mode 0,
echo flag set), speed 1, 2 custom and 3 extra bytes; the 5 received bytes are
echoed after `'K'`, 0, 5. -/
theorem send_success_response_witness :
    send_error_code (parse_send_header 17 1 0 2 0 3) = 0 ∧
    ([9, 8, 7, 6, 5] : List Nat).length =
      (parse_send_header 17 1 0 2 0 3).custom_data_count +
        (parse_send_header 17 1 0 2 0 3).extra_data_count ∧
    (send_step (parse_send_header 17 1 0 2 0 3) [5, 6] [9, 8, 7, 6, 5] []
        1).serial_out = [75, 0, 5, 9, 8, 7, 6, 5] :=
  ⟨by decide, by decide, by
    have h := send_success_response (parse_send_header 17 1 0 2 0 3) [5, 6]
      [9, 8, 7, 6, 5] [] 1 (by decide) (by decide)
    exact h.1.trans (by decide)⟩

/-- C3: For every SEND command whose header fails validation, the handler
writes the two-byte error response and reports completion on that same step,
with no hardware access: no events (no chip-select assertion, no SPI
transaction begun) and the remembered last SPI mode and buffer unchanged. -/
theorem send_validation_error_no_hardware (h : SendHeader)
    (custom rx buf : List Nat) (lm : Nat) (hec : send_error_code h ≠ 0) :
    send_step h custom rx buf lm =
      { serial_out := [69, send_error_code h], events := [], last_mode := lm,
        buffer := buf, done := true } := by
  simp [send_step, hec]

/-- Witness for `send_validation_error_no_hardware` at a concrete invalid
header (speed byte 0 → error code 12). -/
theorem send_validation_error_no_hardware_witness :
    send_error_code (parse_send_header 0 0 0 0 0 0) ≠ 0 ∧
    send_step (parse_send_header 0 0 0 0 0 0) [] [] [] 1 =
      { serial_out := [69, send_error_code (parse_send_header 0 0 0 0 0 0)],
        events := [], last_mode := 1, buffer := [], done := true } :=
  ⟨by decide,
    send_validation_error_no_hardware (parse_send_header 0 0 0 0 0 0) [] [] []
      1 (by decide)⟩

/-- C4: For every SEND transfer, if the requested SPI mode differs from the
remembered last-used mode, a zero-length dummy transfer at the new mode's
settings (4 MHz) precedes the real transfer and the remembered mode becomes
the new mode; if it equals the remembered mode, no dummy transfer occurs and
the remembered state is unchanged. -/
theorem send_clock_polarity_workaround (h : SendHeader)
    (custom rx buf : List Nat) (lm : Nat) (hv : send_error_code h = 0) :
    (h.spi_mode ≠ lm →
      (send_step h custom rx buf lm).events =
        [.spiBegin 4000000 h.spi_mode, .spiTransferLen 0, .spiEnd,
         .csOn h.cs_index, .spiBegin (h.speed_units * 25000) h.spi_mode,
         .spiTransferLen (h.custom_data_count + h.extra_data_count), .spiEnd,
         .allCsOff] ∧
      (send_step h custom rx buf lm).last_mode = h.spi_mode) ∧
    (h.spi_mode = lm →
      (send_step h custom rx buf lm).events =
        [.csOn h.cs_index, .spiBegin (h.speed_units * 25000) h.spi_mode,
         .spiTransferLen (h.custom_data_count + h.extra_data_count), .spiEnd,
         .allCsOff] ∧
      (send_step h custom rx buf lm).last_mode = lm) := by
  constructor
  · intro hne
    simp [send_step, hv, track_spi_clock_polarity, hne]
  · intro heq
    simp [send_step, hv, track_spi_clock_polarity, heq]

/-- Witness for `send_clock_polarity_workaround`: requested mode 0 differs
from remembered mode 1, so the dummy zero-length transaction at 4 MHz precedes
the real 25 kHz transfer and the remembered mode becomes 0. -/
theorem send_clock_polarity_workaround_witness :
    send_error_code (parse_send_header 17 1 0 2 0 3) = 0 ∧
    (parse_send_header 17 1 0 2 0 3).spi_mode ≠ 1 ∧
    ((send_step (parse_send_header 17 1 0 2 0 3) [5, 6] [9, 8, 7, 6, 5] []
        1).events =
      [.spiBegin 4000000 (parse_send_header 17 1 0 2 0 3).spi_mode,
       .spiTransferLen 0, .spiEnd,
       .csOn (parse_send_header 17 1 0 2 0 3).cs_index,
       .spiBegin ((parse_send_header 17 1 0 2 0 3).speed_units * 25000)
         (parse_send_header 17 1 0 2 0 3).spi_mode,
       .spiTransferLen ((parse_send_header 17 1 0 2 0 3).custom_data_count +
         (parse_send_header 17 1 0 2 0 3).extra_data_count), .spiEnd,
       .allCsOff] ∧
     (send_step (parse_send_header 17 1 0 2 0 3) [5, 6] [9, 8, 7, 6, 5] []
        1).last_mode = (parse_send_header 17 1 0 2 0 3).spi_mode) :=
  ⟨by decide, by decide,
    (send_clock_polarity_workaround (parse_send_header 17 1 0 2 0 3) [5, 6]
      [9, 8, 7, 6, 5] [] 1 (by decide)).1 (by decide)⟩

/-- C5: The INFO response is the fixed sequence `'K'`,`'S'`,`'P'`,`'I'`, 3,
API version, then the firmware version big-endian — but the source computes
the low byte as `kFirmwareVersion & 0x08`, which is 0, while
`kFirmwareVersion % 256 = 1`: the code diverges from its own
"Firmware version LSB" comment (and from the claim) on the final byte. -/
theorem info_response_firmware_lsb_bug :
    info_response =
      [75, 83, 80, 73, 3, kApiVersion, kFirmwareVersion >>> 8, 0] ∧
    kFirmwareVersion % 256 = 1 ∧
    info_response.getD 7 0 ≠ kFirmwareVersion % 256 := by
  decide

/-- C6: On any tick where the elapsed time since command start exceeds the
timeout threshold, the dispatcher invokes the handler's abort hook and clears
the active slot, writing no byte and never invoking the handler's step (the
result is the same for every step function); on a following tick the
dispatcher is idle and reads a fresh selector byte. -/
theorem dispatcher_timeout_abort
    (step step2 : CmdId → LoopState → LoopState × Bool × List Nat × List Event)
    (st : LoopState) (now now2 : Nat) (sel : Option Nat) (c : CmdId) (b : Nat)
    (hc : st.current_cmd = some c)
    (ht : elapsed_millis st.timer_start now > kCommandTimeoutMillis) :
    loop_tick step st now sel =
      ({ st with current_cmd := none }, [], [.aborted c]) ∧
    (loop_tick step st now sel).1.current_cmd = none ∧
    Event.selectorRead b ∈
      (loop_tick step2 { st with current_cmd := none } now2 (some b)).2.2 := by
  have h1 : loop_tick step st now sel =
      ({ st with current_cmd := none }, [], [.aborted c]) := by
    unfold loop_tick
    rw [hc]
    simp [ht]
  refine ⟨h1, by rw [h1], ?_⟩
  unfold loop_tick
  simp only
  cases hfind : find_command_handler_by_char b <;> simp [hfind]

/-- Witness for `dispatcher_timeout_abort`: a SEND command started at time 0,
ticked at time 300 (> 250 ms), with a selector byte `'e'` offered on the next
tick. -/
theorem dispatcher_timeout_abort_witness :
    ({ current_cmd := some CmdId.send, timer_start := 0, data_size := 4,
       send_state := SendState.reset } : LoopState).current_cmd =
      some CmdId.send ∧
    elapsed_millis 0 300 > kCommandTimeoutMillis ∧
    (loop_tick (fun _ s => (s, true, [], []))
        { current_cmd := some CmdId.send, timer_start := 0, data_size := 4,
          send_state := SendState.reset } 300 none =
      ({ current_cmd := none, timer_start := 0, data_size := 4,
         send_state := SendState.reset }, [], [.aborted CmdId.send]) ∧
     (loop_tick (fun _ s => (s, true, [], []))
        { current_cmd := some CmdId.send, timer_start := 0, data_size := 4,
          send_state := SendState.reset } 300 none).1.current_cmd = none ∧
     Event.selectorRead 101 ∈
       (loop_tick (fun _ s => (s, true, [], []))
         { current_cmd := none, timer_start := 0, data_size := 4,
           send_state := SendState.reset } 301 (some 101)).2.2) :=
  ⟨rfl, by decide,
    dispatcher_timeout_abort (fun _ s => (s, true, [], []))
      (fun _ s => (s, true, [], []))
      { current_cmd := some CmdId.send, timer_start := 0, data_size := 4,
        send_state := SendState.reset } 300 301 none CmdId.send 101 rfl
      (by decide)⟩

/-- C7: The AUX_READ response is `'K'` followed by exactly one byte (the
packed result, which fits in 8 bits), and for every logical pin index i in
0–7, bit i of that response byte equals the level read from the physical line
`aux_pins[i]` mapped to logical index i (index 7 most significant, index 0
least significant). -/
theorem aux_read_response_bits (level : Nat → Bool) (i : Nat) (hi : i < 8) :
    (aux_read_response level).length = 2 ∧
    (aux_read_response level).head? = some 75 ∧
    aux_read_result level < 256 ∧
    aux_read_response level = [75, aux_read_result level] ∧
    ((aux_read_response level).getD 1 0).testBit i =
      level (aux_pins.getD i 0) := by
  have hb : ∀ b : Bool, (if b then (1 : Nat) else 0) ≤ 1 := by
    intro b; cases b <;> simp
  refine ⟨rfl, rfl, ?_, rfl, ?_⟩
  · rw [aux_read_result_eq]
    have h0 := hb (level 0)
    have h1 := hb (level 1)
    have h2 := hb (level 2)
    have h3 := hb (level 3)
    have h4 := hb (level 4)
    have h5 := hb (level 5)
    have h6 := hb (level 6)
    have h7 := hb (level 7)
    omega
  · show (aux_read_result level).testBit i = level (aux_pins.getD i 0)
    rw [aux_read_result_eq]
    interval_cases i <;>
      simp only [aux_pins, List.getD, List.get?, Option.getD] <;>
      rcases h0 : level 0 <;> rcases h1 : level 1 <;> rcases h2 : level 2 <;>
      rcases h3 : level 3 <;> rcases h4 : level 4 <;> rcases h5 : level 5 <;>
      rcases h6 : level 6 <;> rcases h7 : level 7 <;>
      (try simp only [h0, h1, h2, h3, h4, h5, h6, h7, if_true, if_false]) <;>
      decide

/-- Witness for `aux_read_response_bits`: only physical line 2 is high; the
response is `'K'` plus one byte whose bit 2 equals that line's level. -/
theorem aux_read_response_bits_witness :
    2 < 8 ∧
    ((aux_read_response fun g => decide (g = 2)).length = 2 ∧
     (aux_read_response fun g => decide (g = 2)).head? = some 75 ∧
     aux_read_result (fun g => decide (g = 2)) < 256 ∧
     aux_read_response (fun g => decide (g = 2)) =
       [75, aux_read_result fun g => decide (g = 2)] ∧
     ((aux_read_response fun g => decide (g = 2)).getD 1 0).testBit 2 =
       (fun g => decide (g = 2)) (aux_pins.getD 2 0)) :=
  ⟨by decide, aux_read_response_bits (fun g => decide (g = 2)) 2 (by decide)⟩

/-- C8: `Timer::elapsed_millis` is the modular 32-bit difference
`(t - s) mod 2^32`; consequently a command started `d` ms before the current
instant reads elapsed time exactly `d` even across counter wraparound, so a
start shortly before the ~49-day rollover cannot produce a spurious
timeout. -/
theorem timer_elapsed_modular (s t d : Nat) (hs : s < 2 ^ 32)
    (ht : t < 2 ^ 32) (hd : d < 2 ^ 32) :
    (elapsed_millis s t : Int) = ((t : Int) - (s : Int)) % (2 ^ 32 : Int) ∧
    elapsed_millis s ((s + d) % 2 ^ 32) = d ∧
    (d ≤ kCommandTimeoutMillis →
      elapsed_millis s ((s + d) % 2 ^ 32) ≤ kCommandTimeoutMillis) := by
  unfold elapsed_millis u32_sub kCommandTimeoutMillis
  refine ⟨by omega, by omega, fun hle => by omega⟩

/-- Witness for `timer_elapsed_modular`: a command started 100 ms before the
32-bit rollover, observed 150 ms later (timer already wrapped to 50). -/
theorem timer_elapsed_modular_witness :
    2 ^ 32 - 100 < 2 ^ 32 ∧ (50 : Nat) < 2 ^ 32 ∧ (150 : Nat) < 2 ^ 32 ∧
    ((elapsed_millis (2 ^ 32 - 100) 50 : Int) =
      ((50 : Int) - ((2 ^ 32 - 100 : Nat) : Int)) % (2 ^ 32 : Int) ∧
     elapsed_millis (2 ^ 32 - 100) ((2 ^ 32 - 100 + 150) % 2 ^ 32) = 150 ∧
     (150 ≤ kCommandTimeoutMillis →
       elapsed_millis (2 ^ 32 - 100) ((2 ^ 32 - 100 + 150) % 2 ^ 32) ≤
         kCommandTimeoutMillis)) :=
  ⟨by norm_num, by norm_num, by norm_num,
    timer_elapsed_modular (2 ^ 32 - 100) 50 150 (by norm_num) (by norm_num)
      (by norm_num)⟩

/-- C9: Under the precondition `data_size ≤ n ≤ 256`, `read_serial_bytes(n)`
writes only inside the 256-byte `data_buffer` (the write span
`[data_size, data_size + requested)` stays within capacity), never grows
`data_size` beyond `n`, keeps `data_size` non-decreasing, and returns true
exactly when the new `data_size ≥ n`.  The precondition matters because
`required = n - data_size` is an unsigned 16-bit difference that wraps to
`2^16 - (data_size - n)` whenever `data_size > n`. -/
theorem read_serial_bytes_bounds (n data_size avail : Nat)
    (h1 : data_size ≤ n) (h2 : n ≤ kMaxTransactionBytes) :
    data_size + (read_serial_bytes n data_size avail).2.1 ≤
      kMaxTransactionBytes ∧
    (read_serial_bytes n data_size avail).1 ≤ n ∧
    data_size ≤ (read_serial_bytes n data_size avail).1 ∧
    ((read_serial_bytes n data_size avail).2.2 = true ↔
      (read_serial_bytes n data_size avail).1 ≥ n) ∧
    (∀ ds, n < ds → ds < 2 ^ 16 → u16_sub n ds = 2 ^ 16 - (ds - n)) := by
  refine ⟨?_, ?_, ?_, ?_, ?_⟩
  · simp only [read_serial_bytes, kMaxTransactionBytes, u16_sub] at *
    omega
  · simp only [read_serial_bytes, kMaxTransactionBytes, u16_sub] at *
    omega
  · simp only [read_serial_bytes, kMaxTransactionBytes, u16_sub] at *
    omega
  · simp only [read_serial_bytes, kMaxTransactionBytes, u16_sub, ge_iff_le,
      decide_eq_true_eq] at *
  · intro ds hlt hds
    simp only [u16_sub]
    omega

/-- Witness for `read_serial_bytes_bounds`: target 6 bytes, 2 already read,
100 available — 4 more are taken and the call completes. -/
theorem read_serial_bytes_bounds_witness :
    (2 : Nat) ≤ 6 ∧ (6 : Nat) ≤ kMaxTransactionBytes ∧
    (2 + (read_serial_bytes 6 2 100).2.1 ≤ kMaxTransactionBytes ∧
     (read_serial_bytes 6 2 100).1 ≤ 6 ∧
     2 ≤ (read_serial_bytes 6 2 100).1 ∧
     ((read_serial_bytes 6 2 100).2.2 = true ↔
       (read_serial_bytes 6 2 100).1 ≥ 6) ∧
     (∀ ds, 6 < ds → ds < 2 ^ 16 → u16_sub 6 ds = 2 ^ 16 - (ds - 6))) :=
  ⟨by decide, by decide, read_serial_bytes_bounds 6 2 100 (by decide)
    (by decide)⟩

/-- C10: Every SEND command begins from a clean handler state: when the
dispatcher accepts selector `'s'` (115), it resets the timer, clears
`data_size`, and `on_cmd_entered` resets the handler — `_got_cmd_header`
false and every decoded header field zeroed — regardless of whatever handler
state a previous command left behind. -/
theorem send_command_fresh_state
    (step : CmdId → LoopState → LoopState × Bool × List Nat × List Event)
    (st : LoopState) (now : Nat) (hidle : st.current_cmd = none) :
    loop_tick step st now (some 115) =
      ({ current_cmd := some .send, timer_start := now % 2 ^ 32,
         data_size := 0, send_state := SendState.reset }, [],
        [.allCsOff, .selectorRead 115, .entered .send]) ∧
    find_command_handler_by_char 115 = some .send ∧
    SendState.reset =
      { got_cmd_header := false, cs_index := 0, spi_mode := 0,
        return_read_bytes := false, speed_units := 0, custom_data_count := 0,
        extra_data_count := 0 } := by
  refine ⟨?_, by decide, by decide⟩
  unfold loop_tick
  rw [hidle]
  simp [find_command_handler_by_char]

/-- Witness for `send_command_fresh_state`: an idle dispatcher whose SEND
handler still holds stale header data from an earlier command accepts `'s'`
and starts from the reset state. -/
theorem send_command_fresh_state_witness :
    ({ current_cmd := none, timer_start := 7, data_size := 3,
       send_state :=
         { got_cmd_header := true, cs_index := 1, spi_mode := 2,
           return_read_bytes := true, speed_units := 9,
           custom_data_count := 9, extra_data_count := 9 } } :
      LoopState).current_cmd = none ∧
    (loop_tick (fun _ s => (s, true, [], []))
        { current_cmd := none, timer_start := 7, data_size := 3,
          send_state :=
            { got_cmd_header := true, cs_index := 1, spi_mode := 2,
              return_read_bytes := true, speed_units := 9,
              custom_data_count := 9, extra_data_count := 9 } } 11
        (some 115) =
      ({ current_cmd := some .send, timer_start := 11 % 2 ^ 32,
         data_size := 0, send_state := SendState.reset }, [],
        [.allCsOff, .selectorRead 115, .entered .send]) ∧
     find_command_handler_by_char 115 = some .send ∧
     SendState.reset =
       { got_cmd_header := false, cs_index := 0, spi_mode := 0,
         return_read_bytes := false, speed_units := 0,
         custom_data_count := 0, extra_data_count := 0 }) :=
  ⟨rfl,
    send_command_fresh_state (fun _ s => (s, true, [], []))
      { current_cmd := none, timer_start := 7, data_size := 3,
        send_state :=
          { got_cmd_header := true, cs_index := 1, spi_mode := 2,
            return_read_bytes := true, speed_units := 9,
            custom_data_count := 9, extra_data_count := 9 } } 11 rfl⟩

end SpiAdapter
